import Mathlib

/-!
Verification of `src/defense.py` (Spyware Defense Lab).

Python strings are modelled as lists of characters (`PyStr`), so that
`str.split(",")` becomes `List.splitOn ','` (both produce `[""]` on the
empty string and keep empty tokens around stray commas) and `str.strip()`
becomes dropping whitespace from both ends.  Python dictionaries are
modelled as association lists in insertion order (`Dict`); `key in d`
is `dictContains`, `del d[key]` is `dictErase`, `d[key]` is `dictGet`.
The process environment is modelled by `Env`, holding the two variables
the module reads.  Each Python function becomes a pure Lean function of
the environment and its arguments.
-/

/-- A Python string, as its list of characters. -/
abbrev PyStr := List Char

/-- Python `str.strip()`: drop whitespace from both ends. -/
def pyStrip (s : PyStr) : PyStr :=
  ((s.dropWhile Char.isWhitespace).reverse.dropWhile Char.isWhitespace).reverse

/-- The process environment: the two variables `defense.py` reads
(`ALLOWED_TARGETS` and `SENSITIVE_KEYS`); `none` means unset. -/
structure Env where
  allowedTargets : Option PyStr
  sensitiveKeysVar : Option PyStr

/-- A Python dict with string keys: an association list in insertion order. -/
abbrev Dict (V : Type) := List (PyStr × V)

/-- Python `key in d` for a dict `d`. -/
def dictContains {V : Type} (d : Dict V) (k : PyStr) : Bool :=
  d.any (fun p => p.1 == k)

/-- Python `del d[key]`: remove the entry with key `k`. -/
def dictErase {V : Type} (d : Dict V) (k : PyStr) : Dict V :=
  d.filter (fun p => p.1 != k)

/-- Python `d.get(key)`: the value stored at `k`, if any. -/
def dictGet {V : Type} (d : Dict V) (k : PyStr) : Option V :=
  List.lookup k d

/-- `DEFAULT_SAFE_TARGETS = {"127.0.0.1", "localhost", "::1"}` (defense.py line 16). -/
def DEFAULT_SAFE_TARGETS : List PyStr :=
  ["127.0.0.1".toList, "localhost".toList, "::1".toList]

/-- `_get_allowed_targets` (defense.py lines 19-32): the default safe targets,
plus the trimmed non-empty tokens of the comma-split `ALLOWED_TARGETS`
value when that variable is set and non-empty.  The Python set is modelled
as a list; only membership is ever used. -/
def _get_allowed_targets (env : Env) : List PyStr :=
  let allowed := DEFAULT_SAFE_TARGETS
  let env_targets := env.allowedTargets.getD []
  if !env_targets.isEmpty then
    allowed ++ ((env_targets.splitOn ',').map pyStrip).filter (fun t => !t.isEmpty)
  else
    allowed

/-- `is_allowed_target` (defense.py lines 35-51): `false` when
`ALLOWED_TARGETS` is unset or empty, otherwise membership of `target` in
the trimmed comma-split entries (note: empty tokens are NOT filtered here,
unlike in `_get_allowed_targets`). -/
def is_allowed_target (env : Env) (target : PyStr) : Bool :=
  let allowed_targets := env.allowedTargets.getD []
  if allowed_targets.isEmpty then
    false
  else
    let allowed_list := (allowed_targets.splitOn ',').map pyStrip
    allowed_list.contains target

/-- The default sensitive key list `["api_key", "password", "secret", "token"]`
(defense.py line 70). -/
def defaultSensitiveKeys : List PyStr :=
  ["api_key".toList, "password".toList, "secret".toList, "token".toList]

/-- The sensitive-key list in effect (defense.py lines 67-70): the trimmed
non-empty tokens of `SENSITIVE_KEYS` when set and non-empty, otherwise the
four defaults. -/
def sensitiveKeysOf (env : Env) : List PyStr :=
  let env_sensitive_keys := env.sensitiveKeysVar.getD []
  if !env_sensitive_keys.isEmpty then
    ((env_sensitive_keys.splitOn ',').map pyStrip).filter (fun k => !k.isEmpty)
  else
    defaultSensitiveKeys

/-- One iteration of the deletion loop in `redact_sensitive`
(defense.py lines 73-75): the state is the pair
(caller's dict `data`, the working copy `redacted`); `del` acts only on the
copy. -/
def redactStep {V : Type} (st : Dict V × Dict V) (key : PyStr) : Dict V × Dict V :=
  if dictContains st.2 key then (st.1, dictErase st.2 key) else st

/-- The whole call to `redact_sensitive` (defense.py lines 54-78), keeping
both objects: `redacted = data.copy()` starts the pair as `(data, data)`
(the copy holds the same entries as the original but is a distinct object),
then the loop deletes each sensitive key from the copy.  The first
component is the caller's dict as the call leaves it, the second the
returned dict. -/
def redact_run {V : Type} (env : Env) (data : Dict V) : Dict V × Dict V :=
  (sensitiveKeysOf env).foldl redactStep (data, data)

/-- The return value of `redact_sensitive` (defense.py lines 54-78). -/
def redact_sensitive {V : Type} (env : Env) (data : Dict V) : Dict V :=
  (redact_run env data).2

/-- Values stored in the result dicts of the two mock operations. -/
inductive Value where
  | str (s : PyStr)
  | nat (n : Nat)
  | natList (l : List Nat)
  | strList (l : List PyStr)
deriving DecidableEq

/-- The error dict `{"error": "Target not in allowed list"}` (defense.py line 94). -/
def scanError : Dict Value :=
  [("error".toList, Value.str "Target not in allowed list".toList)]

/-- The success dict of `stub_scan_network` (defense.py lines 97-101). -/
def scanSuccess (target : PyStr) : Dict Value :=
  [("target".toList, Value.str target),
   ("open_ports".toList, Value.natList [80, 443, 22]),
   ("status".toList, Value.str "scan_complete".toList)]

/-- `stub_scan_network` (defense.py lines 81-101). -/
def stub_scan_network (env : Env) (target : PyStr) : Dict Value :=
  let allowed_targets := _get_allowed_targets env
  if !(allowed_targets.contains target) then
    scanError
  else
    scanSuccess target

/-- The error dict `{"error": "API key is required"}` (defense.py line 121). -/
def apiError : Dict Value :=
  [("error".toList, Value.str "API key is required".toList)]

/-- The success dict of `mock_test_api_vulnerabilities` (defense.py lines 124-130). -/
def apiSuccess (url : PyStr) (prompts : List PyStr) : Dict Value :=
  [("url".toList, Value.str url),
   ("vulnerabilities".toList, Value.strList []),
   ("leaks".toList, Value.strList []),
   ("prompts_tested".toList, Value.nat prompts.length),
   ("status".toList, Value.str "completed".toList)]

/-- `mock_test_api_vulnerabilities` (defense.py lines 104-130).  The Python
parameter `api_key : Optional[str]` is falsy exactly when it is `None` or
the empty string. -/
def mock_test_api_vulnerabilities (url : PyStr) (api_key : Option PyStr)
    (prompts : List PyStr) : Dict Value :=
  if (api_key.getD []).isEmpty then
    apiError
  else
    apiSuccess url prompts

lemma is_allowed_target_iff (env : Env) (target : PyStr) :
    is_allowed_target env target = true ↔
      env.allowedTargets.getD [] ≠ [] ∧
        target ∈ ((env.allowedTargets.getD []).splitOn ',').map pyStrip := by
  unfold is_allowed_target
  by_cases h : (env.allowedTargets.getD []).isEmpty
  · simp only [h, if_true]
    simp [List.isEmpty_iff.mp h]
  · simp only [h, if_false]
    have hne : env.allowedTargets.getD [] ≠ [] := List.isEmpty_iff.not.mp h
    simp [hne, List.elem_eq_mem]

/-- C1: `is_allowed_target env target` is `true` exactly when
`ALLOWED_TARGETS` is set and non-empty and `target` equals one
whitespace-trimmed entry of its comma-split value; in particular it is
`false` whenever the variable is unset or empty. -/
theorem is_allowed_target_spec (env : Env) (target : PyStr) :
    is_allowed_target env target = true ↔
      env.allowedTargets.getD [] ≠ [] ∧
        target ∈ ((env.allowedTargets.getD []).splitOn ',').map pyStrip :=
  is_allowed_target_iff env target

lemma redactStep_fst {V : Type} (st : Dict V × Dict V) (k : PyStr) :
    (redactStep st k).1 = st.1 := by
  unfold redactStep
  split <;> rfl

lemma foldl_redactStep_fst {V : Type} (keys : List PyStr) (st : Dict V × Dict V) :
    (keys.foldl redactStep st).1 = st.1 := by
  induction keys generalizing st with
  | nil => rfl
  | cons k ks ih => rw [List.foldl_cons, ih, redactStep_fst]

lemma dictErase_of_not_contains {V : Type} (d : Dict V) (k : PyStr)
    (h : dictContains d k = false) : dictErase d k = d := by
  unfold dictContains at h
  unfold dictErase
  rw [List.filter_eq_self]
  intro p hp
  have := List.any_eq_false.mp h p hp
  simp only [bne]
  simpa using this

lemma redactStep_snd {V : Type} (st : Dict V × Dict V) (k : PyStr) :
    (redactStep st k).2 = dictErase st.2 k := by
  unfold redactStep
  by_cases h : dictContains st.2 k = true
  · simp [h]
  · rw [Bool.not_eq_true] at h
    simp [h, dictErase_of_not_contains st.2 k h]

lemma foldl_redactStep_snd {V : Type} (keys : List PyStr) (st : Dict V × Dict V) :
    (keys.foldl redactStep st).2 = keys.foldl (fun acc k => dictErase acc k) st.2 := by
  induction keys generalizing st with
  | nil => rfl
  | cons k ks ih => rw [List.foldl_cons, List.foldl_cons, ih, redactStep_snd]

lemma foldl_dictErase_eq_filter {V : Type} (keys : List PyStr) (d : Dict V) :
    keys.foldl (fun acc k => dictErase acc k) d
      = d.filter (fun p => !(keys.contains p.1)) := by
  induction keys generalizing d with
  | nil => simp
  | cons k ks ih =>
    rw [List.foldl_cons, ih, dictErase, List.filter_filter]
    apply List.filter_congr
    intro p _
    simp only [List.contains_cons, Bool.not_or, bne]
    rw [Bool.and_comm]

lemma redact_sensitive_eq_filter {V : Type} (env : Env) (d : Dict V) :
    redact_sensitive env d
      = d.filter (fun p => !((sensitiveKeysOf env).contains p.1)) := by
  unfold redact_sensitive redact_run
  rw [foldl_redactStep_snd, foldl_dictErase_eq_filter]

lemma lookup_filter_not_contains {V : Type} (d : Dict V) (S : List PyStr) (k : PyStr) :
    List.lookup k (d.filter (fun p => !(S.contains p.1)))
      = if S.contains k then none else List.lookup k d := by
  induction d with
  | nil => cases h : S.contains k <;> simp [h]
  | cons p d ih =>
    obtain ⟨a, v⟩ := p
    by_cases haS : a ∈ S
    · rw [List.filter_cons_of_neg (by simp [haS]), ih]
      by_cases hak : a = k
      · subst hak
        simp [haS]
      · have hne : (k == a) = false := by simp [Ne.symm hak]
        by_cases hkS : k ∈ S <;> simp [hkS, List.lookup_cons, hne]
    · rw [List.filter_cons_of_pos (by simp [haS])]
      by_cases hak : a = k
      · subst hak
        simp [haS, List.lookup_cons]
      · rw [List.lookup_cons, List.lookup_cons]
        have hne : (k == a) = false := by simp [Ne.symm hak]
        rw [hne, ih]

lemma contains_filter_not_contains {V : Type} (d : Dict V) (S : List PyStr) (k : PyStr) :
    dictContains (d.filter (fun p => !(S.contains p.1))) k
      = (!(S.contains k) && dictContains d k) := by
  induction d with
  | nil => simp [dictContains]
  | cons p d ih =>
    obtain ⟨a, v⟩ := p
    by_cases haS : a ∈ S
    · rw [List.filter_cons_of_neg (by simp [haS]), ih]
      by_cases hak : a = k
      · subst hak
        simp [haS, dictContains]
      · have hne : (a == k) = false := by simp [hak]
        simp [dictContains, hne]
    · rw [List.filter_cons_of_pos (by simp [haS])]
      by_cases hak : a = k
      · subst hak
        simp [dictContains, haS]
      · have hne : (a == k) = false := by simp [hak]
        simp only [dictContains, List.any_cons, hne, Bool.false_or]
        rw [← dictContains, ← dictContains, ih]

/-- C3: under any fixed environment, the dict returned by `redact_sensitive`
has no entry at any key of the effective sensitive-key list, and at every
other key it holds exactly the entry (and value) of the input dict. -/
theorem redact_sensitive_removes_exactly (V : Type) (env : Env) (d : Dict V) (k : PyStr) :
    (dictGet (redact_sensitive env d) k
        = if (sensitiveKeysOf env).contains k then none else dictGet d k) ∧
      dictContains (redact_sensitive env d) k
        = (!((sensitiveKeysOf env).contains k) && dictContains d k) := by
  constructor
  · rw [redact_sensitive_eq_filter, dictGet, dictGet,
      lookup_filter_not_contains d (sensitiveKeysOf env) k]
  · rw [redact_sensitive_eq_filter, contains_filter_not_contains d (sensitiveKeysOf env) k]

/-- C4: `redact_sensitive` is idempotent under a fixed environment. -/
theorem redact_sensitive_idem (V : Type) (env : Env) (d : Dict V) :
    redact_sensitive env (redact_sensitive env d) = redact_sensitive env d := by
  simp only [redact_sensitive_eq_filter, List.filter_filter, Bool.and_self]

/-- C5: a call to `redact_sensitive` leaves the caller-supplied dict
untouched: the loop deletes keys only from the copy, so the first component
of the call state (the caller's dict) is returned exactly as passed in. -/
theorem redact_sensitive_preserves_caller (V : Type) (env : Env) (d : Dict V) :
    (redact_run env d).1 = d ∧
      ∀ k : PyStr, dictGet (redact_run env d).1 k = dictGet d k := by
  have h : (redact_run env d).1 = d := by
    unfold redact_run
    exact foldl_redactStep_fst (sensitiveKeysOf env) (d, d)
  exact ⟨h, fun k => by rw [h]⟩

lemma empty_not_mem_get_allowed (env : Env) : [] ∉ _get_allowed_targets env := by
  simp only [_get_allowed_targets]
  split
  · intro hmem
    rcases List.mem_append.mp hmem with h | h
    · revert h
      decide
    · have := (List.mem_filter.mp h).2
      simp at this
  · intro hmem
    revert hmem
    decide

lemma scan_empty_target (env : Env) : stub_scan_network env [] = scanError := by
  have h : (_get_allowed_targets env).contains [] = false := by
    simp [empty_not_mem_get_allowed env]
  simp only [stub_scan_network, h]
  simp

/-- C2 counterexample: with `ALLOWED_TARGETS = "a,,b,"` (a stray-comma
value), the claim says `is_allowed_target ""` is `false`, but the code
returns `true`: `is_allowed_target` trims the comma-split tokens without
filtering out the empty ones, so `""` is a member of its allow list. -/
theorem is_allowed_target_empty_token_counterexample :
    is_allowed_target ⟨some "a,,b,".toList, none⟩ [] = true := by decide

/-- C2 (amended): the scanner's resolver `_get_allowed_targets` trims
entries and filters empty tokens, so the empty string never becomes a
member of its allow list and `stub_scan_network ""` always returns the
error dict; `is_allowed_target`, however, trims without filtering, so
`is_allowed_target ""` is `true` exactly when the trimmed comma-split of
a non-empty `ALLOWED_TARGETS` contains an empty entry (e.g. a stray
comma).  No operation throws on any environment content (all operations
are total functions of the environment). -/
theorem allow_list_empty_token_handling (env : Env) :
    [] ∉ _get_allowed_targets env ∧
      stub_scan_network env [] = scanError ∧
      (is_allowed_target env [] = true ↔
        env.allowedTargets.getD [] ≠ [] ∧
          [] ∈ ((env.allowedTargets.getD []).splitOn ',').map pyStrip) :=
  ⟨empty_not_mem_get_allowed env, scan_empty_target env, is_allowed_target_iff env []⟩

/-- C6: `stub_scan_network` returns exactly the error dict
`{"error": "Target not in allowed list"}` when the target is not in the
scanner's allowed-target set, and exactly
`{"target": target, "open_ports": [80, 443, 22], "status": "scan_complete"}`
when it is. -/
theorem stub_scan_network_shape (env : Env) (target : PyStr) :
    stub_scan_network env target =
      if target ∈ _get_allowed_targets env then scanSuccess target else scanError := by
  unfold stub_scan_network
  by_cases h : target ∈ _get_allowed_targets env <;> simp [h]

lemma default_mem_get_allowed (env : Env) (t : PyStr) (ht : t ∈ DEFAULT_SAFE_TARGETS) :
    t ∈ _get_allowed_targets env := by
  simp only [_get_allowed_targets]
  split
  · exact List.mem_append_left _ ht
  · exact ht

/-- C7: for every environment state, the scanner's allowed-target set
contains the three defaults `"127.0.0.1"`, `"localhost"` and `"::1"`;
with both variables unset, scanning `"127.0.0.1"` yields a dict holding
`open_ports = [80, 443, 22]` and no `error` key. -/
theorem default_targets_always_allowed (env : Env) :
    "127.0.0.1".toList ∈ _get_allowed_targets env ∧
      "localhost".toList ∈ _get_allowed_targets env ∧
      "::1".toList ∈ _get_allowed_targets env ∧
      dictGet (stub_scan_network ⟨none, none⟩ "127.0.0.1".toList) "open_ports".toList
        = some (Value.natList [80, 443, 22]) ∧
      dictContains (stub_scan_network ⟨none, none⟩ "127.0.0.1".toList) "error".toList
        = false :=
  ⟨default_mem_get_allowed env _ (by decide),
   default_mem_get_allowed env _ (by decide),
   default_mem_get_allowed env _ (by decide),
   by decide, by decide⟩

/-- C8: `mock_test_api_vulnerabilities` returns exactly
`{"error": "API key is required"}` when `api_key` is falsy (`None` or the
empty string), and otherwise exactly
`{"url": url, "vulnerabilities": [], "leaks": [], "prompts_tested": len(prompts), "status": "completed"}`,
so `prompts_tested` is the length of the prompt list. -/
theorem mock_test_api_vulnerabilities_shape (url : PyStr) (api_key : Option PyStr)
    (prompts : List PyStr) :
    ((api_key = none ∨ api_key = some []) ∧
        mock_test_api_vulnerabilities url api_key prompts = apiError) ∨
      ((∃ s, api_key = some s ∧ s ≠ []) ∧
        mock_test_api_vulnerabilities url api_key prompts = apiSuccess url prompts ∧
        dictGet (mock_test_api_vulnerabilities url api_key prompts) "prompts_tested".toList
          = some (Value.nat prompts.length)) := by
  cases api_key with
  | none => exact Or.inl ⟨Or.inl rfl, rfl⟩
  | some s =>
    by_cases hs : s = []
    · subst hs
      exact Or.inl ⟨Or.inr rfl, rfl⟩
    · have hse : s.isEmpty = false := by simp [hs]
      have hfn : mock_test_api_vulnerabilities url (some s) prompts
          = apiSuccess url prompts := by
        simp only [mock_test_api_vulnerabilities, Option.getD_some, hse]
        simp
      refine Or.inr ⟨⟨s, rfl, hs⟩, hfn, ?_⟩
      rw [hfn]
      rfl

/-- C9: each mock operation is total and returns either the full success
dict (which has no `error` key) or the one-entry error dict with its fixed
message — never a mixture of result fields and an error field. -/
theorem mock_operations_result_shapes (env : Env) (target url : PyStr)
    (api_key : Option PyStr) (prompts : List PyStr) :
    (stub_scan_network env target = scanError ∨
        (stub_scan_network env target = scanSuccess target ∧
          dictContains (stub_scan_network env target) "error".toList = false)) ∧
      (mock_test_api_vulnerabilities url api_key prompts = apiError ∨
        (mock_test_api_vulnerabilities url api_key prompts = apiSuccess url prompts ∧
          dictContains (mock_test_api_vulnerabilities url api_key prompts) "error".toList
            = false)) := by
  constructor
  · cases h : (_get_allowed_targets env).contains target with
    | false =>
      left
      simp only [stub_scan_network, h]
      simp
    | true =>
      right
      have hfn : stub_scan_network env target = scanSuccess target := by
        simp only [stub_scan_network, h]
        simp
      exact ⟨hfn, by rw [hfn]; rfl⟩
  · cases h : (api_key.getD []).isEmpty with
    | true =>
      left
      simp only [mock_test_api_vulnerabilities, h]
      simp
    | false =>
      right
      have hfn : mock_test_api_vulnerabilities url api_key prompts
          = apiSuccess url prompts := by
        simp only [mock_test_api_vulnerabilities, h]
        simp
      exact ⟨hfn, by rw [hfn]; rfl⟩

/-- C10: the module's two allow-list policies disagree: with both
environment variables unset, `stub_scan_network "localhost"` returns the
full success dict (status `"scan_complete"`) — it consults the
default-including `_get_allowed_targets` — while
`is_allowed_target "localhost"` returns `false`. -/
theorem scan_policy_disagrees_with_is_allowed_target :
    stub_scan_network ⟨none, none⟩ "localhost".toList
        = scanSuccess "localhost".toList ∧
      dictGet (stub_scan_network ⟨none, none⟩ "localhost".toList) "status".toList
        = some (Value.str "scan_complete".toList) ∧
      is_allowed_target ⟨none, none⟩ "localhost".toList = false :=
  ⟨by decide, by decide, by decide⟩
